import Mathlib

/-!
Verification of the movie semantic search engine (`movie_search.py`).

The Python module keeps three module-level globals (`model`, `movies_df`,
`plot_embeddings`), initialized lazily by `initialize_model()`, and exposes
`search_movies(query, top_n)`.  We embed the module state as `Globals`, the
external world (model artifact, `movies.csv`, the embedding model and the
similarity routine) as `PyEnv`, and the two operations as pure state-passing
functions returning `Except PyErr` values in place of raised exceptions.

Scores are kept polymorphic in an ordered type `α` (the code uses machine
floats; `ℤ` instantiates the pipeline executably, `ℝ` is used for the exact
cosine-similarity facts).  `cosine_similarity` models sklearn's
`cosine_similarity` (an external library call at line 98): L2-normalize both
vectors, mapping a zero norm to a division by 1, then take the dot product.
-/

/-- One row of `movies.csv`: a title and a plot cell, where `none` models a
missing (NaN) plot value. -/
structure RawRow where
  title : String
  plot : Option String
deriving DecidableEq, Repr

instance : Inhabited RawRow := ⟨⟨"", none⟩⟩

/-- The loaded CSV, as pandas sees it: which of the two relevant columns are
present in the schema, plus the row data.  Accessing an absent column raises
`KeyError`. -/
structure DataFrame where
  hasTitle : Bool
  hasPlot : Bool
  rows : List RawRow
deriving DecidableEq, Repr

/-- Python exceptions that the module can raise. -/
inductive PyErr where
  /-- `FileNotFoundError` from `load_data` (spec kind: CorpusNotFound). -/
  | fileNotFound
  /-- failure to load the SentenceTransformer model (spec kind: ProviderUnavailable). -/
  | providerError
  /-- `KeyError` from accessing a column absent from the schema. -/
  | keyError
  /-- failure inside `model.encode` while building the index. -/
  | runtimeError
  /-- `ValueError("Query must be a non-empty string")` (spec kind: InvalidQuery). -/
  | valueErrorQuery
  /-- `ValueError("top_n must be a positive integer")` (spec kind: InvalidTopN). -/
  | valueErrorTopN
  /-- `TypeError` from using a still-`None` global (`len(None)`, `cosine_similarity(_, None)`). -/
  | noneTypeError
deriving DecidableEq, Repr

/-- One row of the DataFrame returned by `search_movies`: the raw `title` and
`plot` cells of the selected corpus row (the plot cell may still be NaN —
`fillna` at line 56 only feeds the encoder) plus the similarity score. -/
structure SearchResult (α : Type) where
  title : String
  plot : Option String
  similarity : α
deriving DecidableEq, Repr

instance {α : Type} [Inhabited α] : Inhabited (SearchResult α) := ⟨⟨"", none, default⟩⟩

/-- The external world of the module: whether the SentenceTransformer artifact
loads, whether `model.encode` succeeds, whether `movies.csv` exists and what it
contains, the (deterministic) single-text encoder, and the row-similarity
routine applied to the query vector and one index row. -/
structure PyEnv (α : Type) where
  providerOk : Bool
  encodeOk : Bool
  csvExists : Bool
  csv : DataFrame
  encode : String → List α
  rowSim : List α → List α → α

/-- The three module-level globals.  `model` records whether the
SentenceTransformer is loaded (its behavior lives in `PyEnv.encode`); the other
two are `None` until assigned. -/
structure Globals (α : Type) where
  model : Bool
  movies_df : Option DataFrame
  plot_embeddings : Option (List (List α))
deriving DecidableEq, Repr

/-- Embeds `load_data` (lines 20-34): an existence check on `movies.csv`, then
`pd.read_csv` with no schema validation whatsoever. -/
def load_data {α : Type} (env : PyEnv α) : Except PyErr DataFrame :=
  if env.csvExists then Except.ok env.csv else Except.error PyErr.fileNotFound

/-- Embeds `initialize_model` (lines 36-60).  Each global is assigned as soon
as its producing step succeeds, so a failure in a later step leaves the earlier
assignments in place — exactly the Python `global` semantics.  Returns the new
state plus the raised exception, if any. -/
def init_model {α : Type} (env : PyEnv α) (g : Globals α) : Globals α × Option PyErr :=
  if g.model then (g, none)
  else if ¬ env.providerOk then (g, some PyErr.providerError)
  else
    let g1 : Globals α := { g with model := true }
    match load_data env with
    | Except.error e => (g1, some e)
    | Except.ok df =>
      let g2 : Globals α := { g1 with movies_df := some df }
      if ¬ df.hasPlot then (g2, some PyErr.keyError)
      else
        let plots := df.rows.map (fun r => r.plot.getD "")
        if ¬ env.encodeOk then (g2, some PyErr.runtimeError)
        else ({ g2 with plot_embeddings := some (plots.map env.encode) }, none)

/-- Ordering used to model `np.argsort` on the similarity array: ascending by
value, ties broken by original position.  numpy's default `kind='quicksort'`
is documented as not stable, so the program does not fix the order of equal
values; this model is one concrete refinement (a stable ascending sort), and
no claim theorem depends on the modelled tie order — only on the value order
and on the selection being a permutation of positions. -/
def argRel {α : Type} [LinearOrder α] : (ℕ × α) → (ℕ × α) → Prop :=
  fun p q => p.2 < q.2 ∨ (p.2 = q.2 ∧ p.1 ≤ q.1)

instance argRel.instDecidableRel {α : Type} [LinearOrder α] :
    DecidableRel (@argRel α _) :=
  fun p q => inferInstanceAs (Decidable (p.2 < q.2 ∨ (p.2 = q.2 ∧ p.1 ≤ q.1)))

instance argRel.instIsTotal {α : Type} [LinearOrder α] :
    IsTotal (ℕ × α) (@argRel α _) where
  total p q := by
    rcases lt_trichotomy p.2 q.2 with h | h | h
    · exact Or.inl (Or.inl h)
    · rcases le_total p.1 q.1 with h1 | h1
      · exact Or.inl (Or.inr ⟨h, h1⟩)
      · exact Or.inr (Or.inr ⟨h.symm, h1⟩)
    · exact Or.inr (Or.inl h)

instance argRel.instIsTrans {α : Type} [LinearOrder α] :
    IsTrans (ℕ × α) (@argRel α _) where
  trans p q s hpq hqs := by
    rcases hpq with h1 | ⟨h1, h1'⟩
    · rcases hqs with h2 | ⟨h2, _⟩
      · exact Or.inl (h1.trans h2)
      · exact Or.inl (h2 ▸ h1)
    · rcases hqs with h2 | ⟨h2, h2'⟩
      · exact Or.inl (h1 ▸ h2)
      · exact Or.inr ⟨h1.trans h2, h1'.trans h2'⟩

/-- Embeds `np.argsort(similarities)` (line 101): the list of positions of
`xs`, ordered by ascending value.  The order among equal values is unspecified
in the program (default quicksort is not stable); the model resolves such ties
by ascending position, a choice no claim theorem relies on. -/
def argsort {α : Type} [LinearOrder α] (xs : List α) : List ℕ :=
  (List.insertionSort argRel xs.enum).map Prod.fst

/-- Embeds `np.argsort(similarities)[::-1][:top_n]` (line 101): reverse the
ascending order and keep the first `k` positions. -/
def top_indices {α : Type} [LinearOrder α] (sims : List α) (k : ℕ) : List ℕ :=
  ((argsort sims).reverse).take k

/-- Embeds lines 104-108: take the rows of `movies_df` at the selected
positions, attach the similarity at the same position, and keep the three
output columns. -/
def assemble {α : Type} [Inhabited α] (df : DataFrame) (sims : List α)
    (idxs : List ℕ) : List (SearchResult α) :=
  idxs.map (fun i =>
    { title := (df.rows.getD i default).title
      plot := (df.rows.getD i default).plot
      similarity := sims.getD i default })

/-- Embeds the test `not query.strip()` (line 85): Python's `str.strip()`
leaves the empty string exactly when every character is whitespace.  (The
`isinstance` guards are vacuous in this typed embedding.) -/
def is_blank (s : String) : Bool := s.data.all (fun c => c.isWhitespace)

/-- Embeds `search_movies` (lines 62-108), including its actual operation
order: lazy initialization first (line 82), then the two input validations
(lines 85-89), then clamping against `len(movies_df)` (line 92), query
encoding, the similarity row (line 98), selection (line 101) and result
assembly (lines 104-108, where selecting the `title`/`plot` columns raises
`KeyError` if either is absent from the schema). -/
def search_movies {α : Type} [LinearOrder α] [Inhabited α] (env : PyEnv α)
    (g : Globals α) (query : String) (top_n : Int) :
    Globals α × Except PyErr (List (SearchResult α)) :=
  match init_model env g with
  | (g1, some e) => (g1, Except.error e)
  | (g1, none) =>
    if is_blank query then (g1, Except.error PyErr.valueErrorQuery)
    else if top_n ≤ 0 then (g1, Except.error PyErr.valueErrorTopN)
    else
      match g1.movies_df with
      | none => (g1, Except.error PyErr.noneTypeError)
      | some df =>
        let k : ℕ := (min top_n (df.rows.length : Int)).toNat
        match g1.plot_embeddings with
        | none => (g1, Except.error PyErr.noneTypeError)
        | some embs =>
          let qe := env.encode query
          let sims := embs.map (fun e => env.rowSim qe e)
          if df.hasTitle ∧ df.hasPlot then
            (g1, Except.ok (assemble df sims (top_indices sims k)))
          else (g1, Except.error PyErr.keyError)

/-- Dot product of two score lists, truncating to the shorter one (the code
only ever applies it to equal-length vectors). -/
def ldot {α : Type} [Semiring α] (q v : List α) : α :=
  (List.zipWith (fun a b => a * b) q v).sum

/-- Euclidean norm of a vector, as used by sklearn's row normalization. -/
noncomputable def l2norm (v : List ℝ) : ℝ := Real.sqrt (ldot v v)

/-- Models `sklearn.preprocessing.normalize` on one row: divide by the norm,
with a zero norm replaced by 1 (so a zero vector stays the zero vector). -/
noncomputable def l2normalize (v : List ℝ) : List ℝ :=
  v.map (fun x => x / (if l2norm v = 0 then 1 else l2norm v))

/-- Models sklearn's `cosine_similarity` on one pair of rows (line 98):
normalize both rows, then take the dot product. -/
noncomputable def cosine_similarity (q v : List ℝ) : ℝ :=
  ldot (l2normalize q) (l2normalize v)

/-- Modelled from the spec: `similarity(q, v) = dot(q, v) / (‖q‖ * ‖v‖)`,
defined as `0.0` when either vector has zero magnitude.  This is the spec's
formula, to be compared with `cosine_similarity` above. -/
noncomputable def specSimilarity (q v : List ℝ) : ℝ :=
  if l2norm q = 0 ∨ l2norm v = 0 then 0 else ldot q v / (l2norm q * l2norm v)

/-!
Concrete fixtures used by counterexamples and witnesses.  Integer scores keep
every step of the pipeline kernel-evaluable; `ldot` as the row similarity makes
duplicate plots (equal embeddings) receive equal scores, as the real model
does.
-/

/-- Fixture corpus: two rows with identical plots, so their similarity scores
tie for every query. -/
def dfT : DataFrame := ⟨true, true, [⟨"A", some "x"⟩, ⟨"B", some "x"⟩]⟩

/-- Fixture environment where every initialization step succeeds. -/
def envT : PyEnv ℤ := ⟨true, true, true, dfT, fun _ => [1], fun a b => ldot a b⟩

/-- Fixture state after a successful initialization against `envT`. -/
def gT : Globals ℤ := ⟨true, some dfT, some [[1], [1]]⟩

/-- Fixture environment whose `movies.csv` is absent. -/
def envC : PyEnv ℤ := ⟨true, true, false, dfT, fun _ => [1], fun a b => ldot a b⟩

/-- Fixture environment whose SentenceTransformer model fails to load. -/
def envP : PyEnv ℤ := ⟨false, true, true, dfT, fun _ => [1], fun a b => ldot a b⟩

/-- Fixture CSV whose schema is missing the `plot` column. -/
def dfM : DataFrame := ⟨true, false, [⟨"A", some "x"⟩]⟩

/-- Fixture environment serving `dfM`. -/
def envM : PyEnv ℤ := ⟨true, true, true, dfM, fun _ => [1], fun a b => ldot a b⟩

/-- Fixture CSV whose schema is missing the `title` column. -/
def dfNT : DataFrame := ⟨false, true, [⟨"A", some "x"⟩]⟩

/-- Fixture environment serving `dfNT`. -/
def envNT : PyEnv ℤ := ⟨true, true, true, dfNT, fun _ => [1], fun a b => ldot a b⟩

/-- Fixture state after initializing against `envNT` (the missing `title`
column is not noticed during initialization). -/
def gNT : Globals ℤ := ⟨true, some dfNT, some [[1]]⟩

/-- Fixture corpus for the real-valued similarity bound. -/
def dfR : DataFrame := ⟨true, true, [⟨"t", some "p"⟩]⟩

/-- Fixture real-valued environment whose row similarity is the model of
sklearn's cosine similarity. -/
noncomputable def envR : PyEnv ℝ :=
  ⟨true, true, true, dfR, fun _ => [1], fun a b => cosine_similarity a b⟩

/-- Fixture ready state for `envR`. -/
noncomputable def gR : Globals ℝ := ⟨true, some dfR, some [[(1 : ℝ)]]⟩

/-!
Helper lemmas about the selection pipeline (`argsort`, `top_indices`).
-/

lemma argsort_perm_range {α : Type} [LinearOrder α] (xs : List α) :
    (argsort xs).Perm (List.range xs.length) := by
  have h1 : (List.insertionSort argRel xs.enum).map Prod.fst |>.Perm (xs.enum.map Prod.fst) :=
    (List.perm_insertionSort argRel xs.enum).map Prod.fst
  have h2 : xs.enum.map Prod.fst = List.range xs.length := by
    rw [List.enum_eq_enumFrom, List.enumFrom_map_fst, List.range_eq_range']
  rw [argsort]
  exact h2 ▸ h1

lemma argsort_nodup {α : Type} [LinearOrder α] (xs : List α) : (argsort xs).Nodup :=
  (argsort_perm_range xs).nodup_iff.mpr (List.nodup_range _)

lemma mem_argsort_lt {α : Type} [LinearOrder α] {xs : List α} {i : ℕ}
    (h : i ∈ argsort xs) : i < xs.length :=
  List.mem_range.mp ((argsort_perm_range xs).mem_iff.mp h)

lemma argsort_length {α : Type} [LinearOrder α] (xs : List α) :
    (argsort xs).length = xs.length :=
  (argsort_perm_range xs).length_eq.trans (List.length_range _)

lemma argsort_pairwise {α : Type} [LinearOrder α] [Inhabited α] (xs : List α) :
    (argsort xs).Pairwise (fun i j => xs.getD i default < xs.getD j default ∨
      (xs.getD i default = xs.getD j default ∧ i ≤ j)) := by
  have hs : List.Pairwise argRel (List.insertionSort argRel xs.enum) :=
    List.sorted_insertionSort argRel xs.enum
  rw [argsort, List.pairwise_map]
  refine hs.imp_of_mem ?_
  intro p q hp hq hr
  have hp2 : xs.getD p.1 default = p.2 := by
    have := List.mem_enum_iff_getElem?.mp ((List.mem_insertionSort argRel).mp hp)
    rw [List.getD_eq_getElem?_getD, this, Option.getD_some]
  have hq2 : xs.getD q.1 default = q.2 := by
    have := List.mem_enum_iff_getElem?.mp ((List.mem_insertionSort argRel).mp hq)
    rw [List.getD_eq_getElem?_getD, this, Option.getD_some]
  rw [hp2, hq2]
  exact hr

lemma mem_top_indices_lt {α : Type} [LinearOrder α] {sims : List α} {k i : ℕ}
    (h : i ∈ top_indices sims k) : i < sims.length :=
  mem_argsort_lt (List.mem_reverse.mp (List.mem_of_mem_take h))

lemma top_indices_length {α : Type} [LinearOrder α] (sims : List α) (k : ℕ) :
    (top_indices sims k).length = min k sims.length := by
  rw [top_indices, List.length_take, List.length_reverse, argsort_length]

lemma top_indices_pairwise {α : Type} [LinearOrder α] [Inhabited α] (sims : List α) (k : ℕ) :
    (top_indices sims k).Pairwise (fun i j => sims.getD j default < sims.getD i default ∨
      (sims.getD i default = sims.getD j default ∧ j < i)) := by
  have h1 := (argsort_pairwise sims).and (argsort_nodup sims)
  have h2 : (argsort sims).Pairwise (fun i j => sims.getD i default < sims.getD j default ∨
      (sims.getD j default = sims.getD i default ∧ i < j)) := by
    refine h1.imp ?_
    rintro a b ⟨hab | ⟨heq, hle⟩, hne⟩
    · exact Or.inl hab
    · exact Or.inr ⟨heq.symm, lt_of_le_of_ne hle hne⟩
  exact (List.pairwise_reverse.mpr h2).sublist (List.take_sublist _ _)

/-!
Helper lemmas about engine state and the search state machine.
-/

lemma init_model_of_loaded {α : Type} (env : PyEnv α) {g : Globals α}
    (hm : g.model = true) : init_model env g = (g, none) := by
  simp [init_model, hm]

lemma search_of_ready {α : Type} [LinearOrder α] [Inhabited α] (env : PyEnv α)
    {g : Globals α} {df : DataFrame} {embs : List (List α)}
    (query : String) (top_n : Int)
    (hm : g.model = true) (hdf : g.movies_df = some df)
    (he : g.plot_embeddings = some embs)
    (ht : df.hasTitle = true) (hp : df.hasPlot = true)
    (hq : is_blank query = false) (hn : 0 < top_n) :
    search_movies env g query top_n =
      (g, Except.ok (assemble df (embs.map (fun e => env.rowSim (env.encode query) e))
        (top_indices (embs.map (fun e => env.rowSim (env.encode query) e))
          (min top_n (df.rows.length : Int)).toNat))) := by
  rw [search_movies, init_model_of_loaded env hm]
  simp only [hq, Bool.false_eq_true, if_false, not_le.mpr hn, if_false, hdf, he, ht, hp,
    and_self, if_true]

lemma search_ok_shape {α : Type} [LinearOrder α] [Inhabited α] {env : PyEnv α}
    {g : Globals α} {query : String} {top_n : Int} {rs : List (SearchResult α)}
    (hok : (search_movies env g query top_n).2 = Except.ok rs) :
    ∃ (df : DataFrame) (embs : List (List α)),
      rs = assemble df (embs.map (fun e => env.rowSim (env.encode query) e))
        (top_indices (embs.map (fun e => env.rowSim (env.encode query) e))
          (min top_n (df.rows.length : Int)).toNat) := by
  rw [search_movies] at hok
  rcases hinit : init_model env g with ⟨g1, oe⟩
  rw [hinit] at hok
  match oe with
  | some e => simp at hok
  | none =>
    simp only at hok
    by_cases hq : is_blank query
    · simp [hq] at hok
    · simp only [hq, Bool.false_eq_true, if_false] at hok
      by_cases hn : top_n ≤ 0
      · simp [hn] at hok
      · simp only [hn, if_false] at hok
        match hdf : g1.movies_df with
        | none => rw [hdf] at hok; simp at hok
        | some df =>
          rw [hdf] at hok
          match he : g1.plot_embeddings with
          | none => rw [he] at hok; simp at hok
          | some embs =>
            rw [he] at hok
            simp only at hok
            by_cases hcols : df.hasTitle ∧ df.hasPlot
            · rw [if_pos hcols] at hok
              simp only [Except.ok.injEq] at hok
              exact ⟨df, embs, hok.symm⟩
            · simp [hcols] at hok

/-!
Helper lemmas for the exact cosine-similarity analysis.
-/

lemma ldot_nil_left (v : List ℝ) : ldot ([] : List ℝ) v = 0 := rfl

lemma ldot_nil_right (q : List ℝ) : ldot q ([] : List ℝ) = 0 := by
  cases q <;> rfl

lemma ldot_cons (a b : ℝ) (q v : List ℝ) :
    ldot (a :: q) (b :: v) = a * b + ldot q v := by
  simp [ldot]

lemma ldot_self_nonneg (v : List ℝ) : 0 ≤ ldot v v := by
  induction v with
  | nil => simp [ldot]
  | cons a v ih => rw [ldot_cons]; nlinarith [mul_self_nonneg a]

lemma ldot_sq_le (q v : List ℝ) : (ldot q v) ^ 2 ≤ ldot q q * ldot v v := by
  induction q generalizing v with
  | nil => simp [ldot]
  | cons a q ih =>
    cases v with
    | nil => simp [ldot_nil_right]
    | cons b v =>
      have hD := ih v
      have hQ := ldot_self_nonneg q
      have hV := ldot_self_nonneg v
      rw [ldot_cons, ldot_cons, ldot_cons]
      rcases eq_or_lt_of_le hV with hV0 | hVpos
      · have hD0 : ldot q v = 0 := by nlinarith [sq_nonneg (ldot q v)]
        rw [← hV0, hD0]
        nlinarith [mul_nonneg hQ (mul_self_nonneg b)]
      · nlinarith [sq_nonneg (a * ldot v v - b * ldot q v),
          mul_nonneg (sub_nonneg.mpr hD) (mul_self_nonneg b),
          mul_nonneg (sub_nonneg.mpr hD) hV]

lemma ldot_map_div_left (c : ℝ) (q v : List ℝ) :
    ldot (q.map (fun x => x / c)) v = ldot q v / c := by
  induction q generalizing v with
  | nil => simp [ldot]
  | cons a q ih =>
    cases v with
    | nil => simp [ldot_nil_right]
    | cons b v =>
      simp only [List.map_cons, ldot_cons, ih]
      ring

lemma ldot_map_div_right (c : ℝ) (q v : List ℝ) :
    ldot q (v.map (fun x => x / c)) = ldot q v / c := by
  induction v generalizing q with
  | nil => simp [ldot_nil_right]
  | cons b v ih =>
    cases q with
    | nil => simp [ldot]
    | cons a q =>
      simp only [List.map_cons, ldot_cons, ih]
      ring

lemma l2norm_nonneg (v : List ℝ) : 0 ≤ l2norm v := Real.sqrt_nonneg _

lemma l2norm_eq_zero_iff (v : List ℝ) : l2norm v = 0 ↔ ldot v v = 0 := by
  constructor
  · intro h
    exact le_antisymm (Real.sqrt_eq_zero'.mp h) (ldot_self_nonneg v)
  · intro h
    rw [l2norm, h, Real.sqrt_zero]

lemma ldot_eq_zero_of_left {q : List ℝ} (h : ldot q q = 0) (v : List ℝ) :
    ldot q v = 0 := by
  have h1 : (ldot q v) ^ 2 ≤ 0 := by
    have := ldot_sq_le q v
    nlinarith [ldot_self_nonneg v]
  have h2 : (ldot q v) ^ 2 = 0 := le_antisymm h1 (sq_nonneg _)
  exact pow_eq_zero_iff (two_ne_zero) |>.mp h2

lemma ldot_eq_zero_of_right {v : List ℝ} (h : ldot v v = 0) (q : List ℝ) :
    ldot q v = 0 := by
  have h1 : (ldot q v) ^ 2 ≤ 0 := by
    have := ldot_sq_le q v
    nlinarith [ldot_self_nonneg q]
  have h2 : (ldot q v) ^ 2 = 0 := le_antisymm h1 (sq_nonneg _)
  exact pow_eq_zero_iff (two_ne_zero) |>.mp h2

lemma cosine_eq_div (q v : List ℝ) :
    cosine_similarity q v =
      ldot q v / (if l2norm q = 0 then 1 else l2norm q) /
        (if l2norm v = 0 then 1 else l2norm v) := by
  rw [cosine_similarity, l2normalize, l2normalize, ldot_map_div_left, ldot_map_div_right,
    div_right_comm]

lemma cosine_eq_specSimilarity (q v : List ℝ) :
    cosine_similarity q v = specSimilarity q v := by
  rw [cosine_eq_div, specSimilarity]
  by_cases hq : l2norm q = 0
  · have h0 : ldot q v = 0 :=
      ldot_eq_zero_of_left ((l2norm_eq_zero_iff q).mp hq) v
    simp [hq, h0]
  · by_cases hv : l2norm v = 0
    · have h0 : ldot q v = 0 :=
        ldot_eq_zero_of_right ((l2norm_eq_zero_iff v).mp hv) q
      simp [hq, hv, h0]
    · rw [if_neg hq, if_neg hv, if_neg (by tauto : ¬ (l2norm q = 0 ∨ l2norm v = 0)), div_div]

lemma specSimilarity_bounds (q v : List ℝ) :
    -1 ≤ specSimilarity q v ∧ specSimilarity q v ≤ 1 := by
  rw [specSimilarity]
  split
  · norm_num
  · next h =>
    push_neg at h
    obtain ⟨hq, hv⟩ := h
    have hqpos : 0 < l2norm q := lt_of_le_of_ne (l2norm_nonneg q) (Ne.symm hq)
    have hvpos : 0 < l2norm v := lt_of_le_of_ne (l2norm_nonneg v) (Ne.symm hv)
    have hb : 0 < l2norm q * l2norm v := mul_pos hqpos hvpos
    have hsq : (ldot q v) ^ 2 ≤ (l2norm q * l2norm v) ^ 2 := by
      have h1 : (l2norm q) ^ 2 = ldot q q := Real.sq_sqrt (ldot_self_nonneg q)
      have h2 : (l2norm v) ^ 2 = ldot v v := Real.sq_sqrt (ldot_self_nonneg v)
      calc (ldot q v) ^ 2 ≤ ldot q q * ldot v v := ldot_sq_le q v
        _ = (l2norm q * l2norm v) ^ 2 := by rw [mul_pow, h1, h2]
    have habs : |ldot q v| ≤ l2norm q * l2norm v := by
      nlinarith [abs_nonneg (ldot q v), sq_abs (ldot q v)]
    obtain ⟨hlo, hhi⟩ := abs_le.mp habs
    constructor
    · rw [le_div_iff₀ hb]
      linarith
    · rw [div_le_one hb]
      exact hhi

lemma cosine_similarity_bounds (q v : List ℝ) :
    -1 ≤ cosine_similarity q v ∧ cosine_similarity q v ≤ 1 := by
  rw [cosine_eq_specSimilarity]
  exact specSimilarity_bounds q v

/-!
Claim theorems.
-/

/-- C1 (amended): the precondition checks are evaluated only after
`initialize_model()` has already run (line 82 precedes lines 85-89).  What
does hold: once the engine is initialized (`model` loaded), a call with an
invalid input (blank query, or non-positive `top_n`) fails with the
corresponding `ValueError` — the query check first — and leaves the engine
state exactly unchanged. -/
theorem search_invalid_input_after_init {α : Type} [LinearOrder α] [Inhabited α]
    (env : PyEnv α) (g : Globals α) (query : String) (top_n : Int)
    (hm : g.model = true) (hbad : is_blank query = true ∨ top_n ≤ 0) :
    search_movies env g query top_n =
      (g, Except.error
        (if is_blank query then PyErr.valueErrorQuery else PyErr.valueErrorTopN)) := by
  rw [search_movies, init_model_of_loaded env hm]
  cases hq : is_blank query
  · rcases hbad with hb | hn
    · rw [hq] at hb; cases hb
    · simp [hq, hn]
  · simp [hq]

/-- Witness for C1 at a concrete initialized state and blank query. -/
theorem search_invalid_input_after_init_witness :
    search_movies envT gT "" 5 = (gT, Except.error PyErr.valueErrorQuery) :=
  search_invalid_input_after_init envT gT "" 5 rfl (Or.inl rfl)

/-- Counterexample to C1 as stated: from the uninitialized state, a call with
an invalid (empty) query first performs the full expensive initialization —
model load, corpus load, index build, all visible in the state — and only then
fails validation, so the engine state after the failed call differs from the
state before it. -/
theorem search_validates_after_expensive_work_cex :
    search_movies envT (⟨false, none, none⟩ : Globals ℤ) "" 5 =
      (⟨true, some dfT, some [[1], [1]]⟩, Except.error PyErr.valueErrorQuery)
    ∧ (⟨true, some dfT, some [[1], [1]]⟩ : Globals ℤ) ≠ ⟨false, none, none⟩ :=
  ⟨rfl, by decide⟩

/-- C2 (amended): there is no cached `Failed` state.  If the provider load
fails, nothing was assigned, so every subsequent call re-attempts the whole
initialization; if the corpus load fails after the provider loaded, the
partially initialized state (`model` set, `movies_df` and `plot_embeddings`
still `None`) persists and is observable, and every subsequent call skips
initialization and fails with a `TypeError` on the `None` corpus instead of
re-raising the original `FileNotFoundError`. -/
theorem init_failure_leaves_partial_state :
    (∀ {α : Type} [LinearOrder α] [Inhabited α] (env : PyEnv α) (g : Globals α)
      (query : String) (top_n : Int), g.model = false → env.providerOk = false →
      search_movies env g query top_n = (g, Except.error PyErr.providerError))
    ∧ (∀ {α : Type} [LinearOrder α] [Inhabited α] (env : PyEnv α)
      (query : String) (top_n : Int),
      env.providerOk = true → env.csvExists = false →
      is_blank query = false → 0 < top_n →
      search_movies env (⟨false, none, none⟩ : Globals α) query top_n =
        ((⟨true, none, none⟩ : Globals α), Except.error PyErr.fileNotFound)
      ∧ search_movies env (⟨true, none, none⟩ : Globals α) query top_n =
        ((⟨true, none, none⟩ : Globals α), Except.error PyErr.noneTypeError)) := by
  constructor
  · intro α _ _ env g query top_n hm hp
    rw [search_movies, init_model]
    simp [hm, hp]
  · intro α _ _ env query top_n hp hc hq hn
    constructor
    · rw [search_movies, init_model]
      simp [hp, hc, load_data]
    · rw [search_movies, init_model_of_loaded env rfl]
      simp [hq, not_le.mpr hn]

/-- Witness for C2 at concrete failing environments. -/
theorem init_failure_leaves_partial_state_witness :
    search_movies envP (⟨false, none, none⟩ : Globals ℤ) "a" 5 =
      ((⟨false, none, none⟩ : Globals ℤ), Except.error PyErr.providerError)
    ∧ (search_movies envC (⟨false, none, none⟩ : Globals ℤ) "a" 5 =
        ((⟨true, none, none⟩ : Globals ℤ), Except.error PyErr.fileNotFound)
      ∧ search_movies envC (⟨true, none, none⟩ : Globals ℤ) "a" 5 =
        ((⟨true, none, none⟩ : Globals ℤ), Except.error PyErr.noneTypeError)) :=
  ⟨init_failure_leaves_partial_state.1 envP (⟨false, none, none⟩ : Globals ℤ) "a" 5 rfl rfl,
   init_failure_leaves_partial_state.2 envC "a" 5 rfl rfl rfl (by decide)⟩

/-- Counterexample to C2 as stated: with the corpus file absent, the first
call leaves a partial state (`model` loaded, `movies_df` still `None`) — so
partial state is observable — and the second call raises a `TypeError`, not
the original `FileNotFoundError`, so the same failure is not re-raised. -/
theorem init_failure_not_cached_cex :
    search_movies envC (⟨false, none, none⟩ : Globals ℤ) "a" 5 =
      ((⟨true, none, none⟩ : Globals ℤ), Except.error PyErr.fileNotFound)
    ∧ search_movies envC (⟨true, none, none⟩ : Globals ℤ) "a" 5 =
      ((⟨true, none, none⟩ : Globals ℤ), Except.error PyErr.noneTypeError)
    ∧ PyErr.noneTypeError ≠ PyErr.fileNotFound
    ∧ (⟨true, none, none⟩ : Globals ℤ) ≠ (⟨false, none, none⟩ : Globals ℤ) :=
  ⟨rfl, rfl, by decide, by decide⟩

/-- C5 (amended): on an initialized engine, `search` fails with
`InvalidQuery` exactly when the query is blank, and with `InvalidTopN` exactly
when the query is valid AND `top_n ≤ 0` — the query check takes precedence, so
`top_n ≤ 0` alone does not imply an `InvalidTopN` failure. -/
theorem validation_errors_characterized {α : Type} [LinearOrder α] [Inhabited α]
    (env : PyEnv α) (g : Globals α) (query : String) (top_n : Int)
    (hm : g.model = true) :
    ((search_movies env g query top_n).2 = Except.error PyErr.valueErrorQuery ↔
      is_blank query = true)
    ∧ ((search_movies env g query top_n).2 = Except.error PyErr.valueErrorTopN ↔
      (is_blank query = false ∧ top_n ≤ 0)) := by
  rw [search_movies, init_model_of_loaded env hm]
  cases hq : is_blank query
  · by_cases hn : top_n ≤ 0
    · simp [hn]
    · rcases hdf : g.movies_df with _ | df
      · simp [hdf, hn]
      · rcases he : g.plot_embeddings with _ | embs
        · simp [hdf, he, hn]
        · by_cases hcols : df.hasTitle ∧ df.hasPlot
          · simp [hdf, he, hn, hcols]
          · simp [hdf, he, hn, hcols]
  · simp

/-- Witness for C5: a valid query with a negative `top_n` fails with the
`top_n` error. -/
theorem validation_errors_characterized_witness :
    (search_movies envT gT "ok" (-3)).2 = Except.error PyErr.valueErrorTopN :=
  (validation_errors_characterized envT gT "ok" (-3) rfl).2.mpr ⟨rfl, by decide⟩

/-- Counterexample to C5 as stated: with a blank query AND `top_n = 0`, the
call fails with `InvalidQuery`, not `InvalidTopN`, although `top_n` is zero —
the "fails with `InvalidTopN` iff `top_n` non-positive" direction is false. -/
theorem query_error_shadows_topn_cex :
    (search_movies envT gT " " 0).2 = Except.error PyErr.valueErrorQuery
    ∧ PyErr.valueErrorQuery ≠ PyErr.valueErrorTopN ∧ ((0 : Int) ≤ 0) :=
  ⟨rfl, by decide, le_refl 0⟩

/-- C6 (amended): `load_data` fails with `FileNotFoundError` (CorpusNotFound)
exactly when the data source is absent, and performs no schema validation at
all — there is no `CorpusMalformed` failure in `load`.  A schema missing the
`plot` column only surfaces as a `KeyError` during initialization (when
building the embeddings), leaving a partial state, and a schema missing the
`title` column only surfaces as a `KeyError` during result assembly inside
`search`.  Missing per-record plot values are normalized to the empty string
when the embedding input is built (`fillna` feeds the encoder). -/
theorem load_data_and_schema_errors :
    (∀ {α : Type} (env : PyEnv α), env.csvExists = false →
      load_data env = Except.error PyErr.fileNotFound)
    ∧ (∀ {α : Type} (env : PyEnv α), env.csvExists = true →
      load_data env = Except.ok env.csv)
    ∧ (∀ {α : Type} (env : PyEnv α), env.providerOk = true → env.csvExists = true →
      env.csv.hasPlot = false →
      init_model env (⟨false, none, none⟩ : Globals α) =
        ((⟨true, some env.csv, none⟩ : Globals α), some PyErr.keyError))
    ∧ (∀ {α : Type} (env : PyEnv α), env.providerOk = true → env.encodeOk = true →
      env.csvExists = true → env.csv.hasPlot = true →
      init_model env (⟨false, none, none⟩ : Globals α) =
        ((⟨true, some env.csv,
            some ((env.csv.rows.map (fun r => r.plot.getD "")).map env.encode)⟩ : Globals α),
          none))
    ∧ (∀ {α : Type} [LinearOrder α] [Inhabited α] (env : PyEnv α) (g : Globals α)
      (df : DataFrame) (embs : List (List α)) (query : String) (top_n : Int),
      g.model = true → g.movies_df = some df → g.plot_embeddings = some embs →
      df.hasTitle = false → is_blank query = false → 0 < top_n →
      (search_movies env g query top_n).2 = Except.error PyErr.keyError) := by
  refine ⟨?_, ?_, ?_, ?_, ?_⟩
  · intro α env hc
    simp [load_data, hc]
  · intro α env hc
    simp [load_data, hc]
  · intro α env hp hc hplot
    simp [init_model, load_data, hp, hc, hplot]
  · intro α env hp he hc hplot
    simp [init_model, load_data, hp, he, hc, hplot]
  · intro α _ _ env g df embs query top_n hm hdf hpe ht hq hn
    rw [search_movies, init_model_of_loaded env hm]
    simp [hq, not_le.mpr hn, hdf, hpe, ht]

/-- Witness for C6 at concrete environments. -/
theorem load_data_and_schema_errors_witness :
    load_data envC = Except.error PyErr.fileNotFound
    ∧ load_data envT = Except.ok dfT
    ∧ init_model envM (⟨false, none, none⟩ : Globals ℤ) =
        ((⟨true, some dfM, none⟩ : Globals ℤ), some PyErr.keyError)
    ∧ init_model envT (⟨false, none, none⟩ : Globals ℤ) =
        ((⟨true, some dfT, some [[1], [1]]⟩ : Globals ℤ), none)
    ∧ (search_movies envNT gNT "a" 1).2 = Except.error PyErr.keyError :=
  ⟨load_data_and_schema_errors.1 envC rfl,
   load_data_and_schema_errors.2.1 envT rfl,
   load_data_and_schema_errors.2.2.1 envM rfl rfl rfl,
   load_data_and_schema_errors.2.2.2.1 envT rfl rfl rfl rfl,
   load_data_and_schema_errors.2.2.2.2 envNT gNT dfNT [[1]] "a" 1 rfl rfl rfl rfl rfl
     (by decide)⟩

/-- Counterexample to C6 as stated: a data source whose schema is missing the
required `plot` field loads successfully — `load` does not fail with a
malformed-corpus error. -/
theorem load_data_missing_plot_column_ok_cex :
    load_data envM = Except.ok dfM ∧ dfM.hasPlot = false :=
  ⟨rfl, rfl⟩

/-- C4 (confirmed): on a ready engine, a valid call returns exactly
`min top_n corpusSize` results: exactly `top_n` when `top_n ≤ corpusSize`, and
exactly `corpusSize` when `top_n` exceeds it (clamping, not an error). -/
theorem search_returns_min_topn_corpus {α : Type} [LinearOrder α] [Inhabited α]
    (env : PyEnv α) (g : Globals α) (df : DataFrame) (embs : List (List α))
    (query : String) (top_n : Int)
    (hm : g.model = true) (hdf : g.movies_df = some df)
    (he : g.plot_embeddings = some embs)
    (hlen : embs.length = df.rows.length)
    (ht : df.hasTitle = true) (hp : df.hasPlot = true)
    (hq : is_blank query = false) (hn : 0 < top_n) :
    ∃ rs, (search_movies env g query top_n).2 = Except.ok rs ∧
      rs.length = min top_n.toNat df.rows.length := by
  refine ⟨_, by rw [search_of_ready env query top_n hm hdf he ht hp hq hn], ?_⟩
  simp only [assemble, List.length_map, top_indices_length, hlen]
  omega

/-- Witness for C4: a corpus of 2 rows with `top_n = 5` yields
`min 5 2 = 2` results. -/
theorem search_returns_min_topn_corpus_witness :
    ∃ rs, (search_movies envT gT "q" 5).2 = Except.ok rs ∧
      rs.length = min (5 : Int).toNat dfT.rows.length :=
  search_returns_min_topn_corpus envT gT dfT [[1], [1]] "q" 5 rfl rfl rfl rfl rfl rfl rfl
    (by decide)

/-- C7 (confirmed): on a ready engine, a valid call returns exactly the
assembled list: the result at rank `j` carries verbatim the `title` and `plot`
cells of the corpus row at the `j`-th selected index — an index within the
corpus — together with the similarity score computed for that same row, in the
rank order produced by selection. -/
theorem results_verbatim_at_selected_indices {α : Type} [LinearOrder α] [Inhabited α]
    (env : PyEnv α) (g : Globals α) (df : DataFrame) (embs : List (List α))
    (query : String) (top_n : Int)
    (hm : g.model = true) (hdf : g.movies_df = some df)
    (he : g.plot_embeddings = some embs)
    (hlen : embs.length = df.rows.length)
    (ht : df.hasTitle = true) (hp : df.hasPlot = true)
    (hq : is_blank query = false) (hn : 0 < top_n) :
    ∀ (sims : List α) (idxs : List ℕ),
      sims = embs.map (fun e => env.rowSim (env.encode query) e) →
      idxs = top_indices sims (min top_n (df.rows.length : Int)).toNat →
      (search_movies env g query top_n).2 = Except.ok (assemble df sims idxs)
      ∧ ∀ j, j < idxs.length →
          idxs.getD j 0 < df.rows.length
          ∧ (assemble df sims idxs).getD j default =
              { title := (df.rows.getD (idxs.getD j 0) default).title
                plot := (df.rows.getD (idxs.getD j 0) default).plot
                similarity := sims.getD (idxs.getD j 0) default } := by
  intro sims idxs hsims hidxs
  subst hsims
  subst hidxs
  constructor
  · rw [search_of_ready env query top_n hm hdf he ht hp hq hn]
  · intro j hj
    have hmem : (top_indices (embs.map (fun e => env.rowSim (env.encode query) e))
        (min top_n (df.rows.length : Int)).toNat).getD j 0 ∈
        top_indices (embs.map (fun e => env.rowSim (env.encode query) e))
          (min top_n (df.rows.length : Int)).toNat := by
      rw [List.getD_eq_getElem _ _ hj]
      exact List.getElem_mem hj
    have hlt := mem_top_indices_lt hmem
    rw [List.length_map, hlen] at hlt
    refine ⟨hlt, ?_⟩
    rw [assemble, List.getD_eq_getElem _ _ (by simpa using hj), List.getElem_map,
      List.getD_eq_getElem _ _ hj]

/-- Witness for C7 at rank 0 of a concrete call. -/
theorem results_verbatim_at_selected_indices_witness :
    (search_movies envT gT "q" 2).2 =
      Except.ok (assemble dfT [1, 1] (top_indices [(1 : ℤ), 1] 2))
    ∧ ((top_indices [(1 : ℤ), 1] 2).getD 0 0 < dfT.rows.length
      ∧ (assemble dfT [1, 1] (top_indices [(1 : ℤ), 1] 2)).getD 0 default =
          { title := (dfT.rows.getD ((top_indices [(1 : ℤ), 1] 2).getD 0 0) default).title
            plot := (dfT.rows.getD ((top_indices [(1 : ℤ), 1] 2).getD 0 0) default).plot
            similarity := [(1 : ℤ), 1].getD ((top_indices [(1 : ℤ), 1] 2).getD 0 0) default }) := by
  have h := results_verbatim_at_selected_indices envT gT dfT [[1], [1]] "q" 2
    rfl rfl rfl rfl rfl rfl rfl (by decide) [1, 1] (top_indices [(1 : ℤ), 1] 2) rfl rfl
  exact ⟨h.1, h.2 0 (by decide)⟩

/-- C3 (amended): every successful search call returns results sorted by
similarity in descending order.  The claimed ascending tie order is false
(see the counterexample), and the program guarantees no tie order at all:
`np.argsort` is called with its default `kind='quicksort'`, which numpy
documents as not stable, so the order of equal scores is unspecified — this
theorem asserts only the stability-independent descending order of the
similarity values themselves. -/
theorem search_results_sorted_desc {α : Type} [LinearOrder α] [Inhabited α]
    (env : PyEnv α) (g : Globals α) (query : String) (top_n : Int)
    (rs : List (SearchResult α))
    (hok : (search_movies env g query top_n).2 = Except.ok rs) :
    rs.Pairwise (fun a b => b.similarity ≤ a.similarity) := by
  obtain ⟨df, embs, hrs⟩ := search_ok_shape hok
  subst hrs
  rw [assemble, List.pairwise_map]
  refine (top_indices_pairwise _ _).imp ?_
  rintro i j (hlt | ⟨heq, _⟩)
  · exact le_of_lt hlt
  · exact le_of_eq heq.symm

/-- Witness for C3 at a concrete call with tied scores. -/
theorem search_results_sorted_desc_witness :
    ([⟨"B", some "x", (1 : ℤ)⟩, ⟨"A", some "x", 1⟩] : List (SearchResult ℤ)).Pairwise
        (fun a b => b.similarity ≤ a.similarity) :=
  search_results_sorted_desc envT gT "q" 2
    [⟨"B", some "x", (1 : ℤ)⟩, ⟨"A", some "x", 1⟩] rfl

/-- Counterexample to C3 as stated: corpus rows `A` (index 0) and `B`
(index 1) have identical plots, so both similarity scores are 1, and this
concrete two-row call returns `B` before `A` — the tied pair appears in
descending, not ascending, index order (on a two-element array numpy's
argsort behaves as the stable model does, and the reversal selects
`[1, 0]`). -/
theorem equal_scores_desc_index_cex :
    search_movies envT gT "q" 2 =
      (gT, Except.ok [⟨"B", some "x", (1 : ℤ)⟩, ⟨"A", some "x", 1⟩])
    ∧ dfT.rows = [⟨"A", some "x"⟩, ⟨"B", some "x"⟩]
    ∧ top_indices [(1 : ℤ), 1] 2 = [1, 0] :=
  ⟨rfl, rfl, rfl⟩

/-- C8 (confirmed): when the row similarity is (the model of) sklearn's
cosine similarity, every similarity value in a successful search result lies
in the closed interval `[-1, 1]` — exact real arithmetic; by Cauchy-Schwarz,
including the zero-magnitude rows mapped to score 0. -/
theorem search_similarities_bounded (env : PyEnv ℝ) (g : Globals ℝ)
    (query : String) (top_n : Int) (rs : List (SearchResult ℝ))
    (hsim : env.rowSim = fun a b => cosine_similarity a b)
    (hok : (search_movies env g query top_n).2 = Except.ok rs) :
    ∀ r ∈ rs, -1 ≤ r.similarity ∧ r.similarity ≤ 1 := by
  obtain ⟨df, embs, hrs⟩ := search_ok_shape hok
  subst hrs
  intro r hr
  rw [assemble] at hr
  obtain ⟨i, hi, hfr⟩ := List.mem_map.mp hr
  have hilt : i < (embs.map (fun e => env.rowSim (env.encode query) e)).length :=
    mem_top_indices_lt hi
  subst hfr
  simp only
  rw [List.getD_eq_getElem _ _ hilt, List.getElem_map]
  simp only [hsim]
  exact cosine_similarity_bounds _ _

/-- Witness for C8 at a concrete one-row real-valued call. -/
theorem search_similarities_bounded_witness :
    -1 ≤ cosine_similarity [(1 : ℝ)] [1] ∧ cosine_similarity [(1 : ℝ)] [1] ≤ 1 :=
  search_similarities_bounded envR gR "a" 1
    [⟨"t", some "p", cosine_similarity [(1 : ℝ)] [1]⟩] rfl rfl
    ⟨"t", some "p", cosine_similarity [(1 : ℝ)] [1]⟩ (List.Mem.head _)

/-- C9 (confirmed): the similarity actually computed (sklearn's
normalize-then-dot, with zero norms replaced by 1) coincides with the spec
formula `dot(q, v) / (‖q‖ * ‖v‖)` guarded to `0` whenever either vector has
zero magnitude — the division never happens with a zero denominator. -/
theorem cosine_similarity_eq_spec_formula (q v : List ℝ) :
    cosine_similarity q v = specSimilarity q v :=
  cosine_eq_specSimilarity q v
